import Mathlib

/-!
Shallow embedding of `src/src/App.tsx` (Google-AI-DnD-Platform), the single
source file of the repository: a React single-page client that lists players,
tracks a selected player, and submits free-text actions to a remote HTTP
resource.

Modelling choices:
- The React state hooks become the fields of `AppState`.
- Each async handler (`fetchPlayers`, `fetchActions`, `handleSubmitAction`)
  becomes a pure function of the state and of the outcome of the HTTP calls it
  awaits; the outcome of a call is a `FetchOutcome` (success with a parsed JSON
  payload, or failure carrying the thrown error message — both a non-ok HTTP
  status and a transport error throw in the source).
- A parsed JSON payload that may or may not be an array is a `Payload`
  (`Array.isArray(data) ? data : []` becomes `Payload.coerce`).
- Outward-visible side channels (the `fetch` call itself, `console.error`,
  `alert`) are recorded as an ordered list of `Effect`s returned next to the
  new state, so that "issues no request", "reported only to the diagnostic
  channel" and "shown as a blocking alert" are statable.
- JS `String.prototype.trim` is modelled by `jsTrim`, dropping whitespace from
  both ends of the character list.
- The selection `useEffect` (App.tsx lines 43-52) runs synchronously up to the
  un-awaited `fetchActions` call; `selectionEffectPendingState` is the state
  observable while that fetch is in flight, and `selectionEffect` the state
  after the fetch resolves with a given outcome.
-/

namespace DnDApp

/-- Embedding of `interface Player` of App.tsx. -/
structure Player where
  id : String
  name : String
  hp : Nat
  strength : Nat
  dexterity : Nat
  intelligence : Nat
  gold : Nat
deriving Repr, DecidableEq

/-- Embedding of `interface PlayerAction` of App.tsx. -/
structure PlayerAction where
  id : String
  player_id : String
  action_text : String
  turn_number : Nat
  created_at : Option String
deriving Repr, DecidableEq

/-- The seven `useState` hooks of `App`. -/
structure AppState where
  players : List Player
  selectedPlayerId : String
  selectedPlayer : Option Player
  actions : List PlayerAction
  newActionText : String
  loading : Bool
  error : Option String
deriving Repr, DecidableEq

/-- The initial values of the seven hooks. -/
def initialState : AppState :=
  { players := [], selectedPlayerId := "", selectedPlayer := none,
    actions := [], newActionText := "", loading := false, error := none }

/-- A parsed JSON payload: either an array of decoded items or some non-array
value (object, string, number, ...). -/
inductive Payload (α : Type) where
  | arr (items : List α)
  | notArray
deriving Repr, DecidableEq

/-- Embedding of `Array.isArray(data) ? data : []`. -/
def Payload.coerce {α : Type} : Payload α → List α
  | .arr items => items
  | .notArray => []

/-- Outcome of one awaited HTTP round trip: success with the parsed body, or a
thrown error (non-ok status or transport failure) carrying the message that the
`catch` block observes. -/
inductive FetchOutcome (α : Type) where
  | success (payload : α)
  | failure (msg : String)
deriving Repr, DecidableEq

/-- The JSON body of the POST issued by `handleSubmitAction`. -/
structure CreateActionBody where
  player_id : String
  action_text : String
  turn_number : Nat
deriving Repr, DecidableEq

/-- The HTTP requests the component can issue, identified by resource and
parameters as they appear in the query string / body. -/
inductive Request where
  | getPlayers
  | getActions (player_id : String)
  | postAction (body : CreateActionBody)
deriving Repr, DecidableEq

/-- Outward-visible side effects of a handler, in program order. -/
inductive Effect where
  | request (r : Request)
  | consoleError (msg : String)
  | alert (msg : String)
deriving Repr, DecidableEq

/-- JS `String.prototype.trim`: drop whitespace from both ends. -/
def jsTrim (s : String) : String :=
  String.mk (((s.data.dropWhile Char.isWhitespace).reverse.dropWhile
    Char.isWhitespace).reverse)

/-- Stage of `fetchPlayers` before the `await fetch`: `setLoading(true)`. -/
def fetchPlayersStart (s : AppState) : AppState :=
  { s with loading := true }

/-- Stage of `fetchPlayers` from the resolution of the `fetch` onwards: on success set
the players (coercing a non-array body to `[]`), on failure record the error
message; the `finally` block sets `loading` back to `false` either way. -/
def fetchPlayersResolve (s : AppState) (r : FetchOutcome (Payload Player)) :
    AppState :=
  match r with
  | .success payload => { s with players := payload.coerce, loading := false }
  | .failure msg => { s with error := some msg, loading := false }

/-- The whole `fetchPlayers` handler (App.tsx lines 54-66), given the outcome
of its single HTTP call. -/
def fetchPlayers (s : AppState) (r : FetchOutcome (Payload Player)) :
    AppState × List Effect :=
  (fetchPlayersResolve (fetchPlayersStart s) r, [.request .getPlayers])

/-- Stage of `fetchActions` from the resolution of the `fetch` onwards: on success
replace the action log wholesale (coercing a non-array body to `[]`); on
failure only `console.error`, leaving the state untouched. -/
def fetchActionsResolve (s : AppState) (r : FetchOutcome (Payload PlayerAction)) :
    AppState × List Effect :=
  match r with
  | .success payload => ({ s with actions := payload.coerce }, [])
  | .failure msg => (s, [.consoleError ("Error fetching actions: " ++ msg)])

/-- The whole `fetchActions` handler (App.tsx lines 68-77), given the outcome
of its single HTTP call. -/
def fetchActions (s : AppState) (playerId : String)
    (r : FetchOutcome (Payload PlayerAction)) : AppState × List Effect :=
  let res := fetchActionsResolve s r
  (res.1, .request (.getActions playerId) :: res.2)

/-- The selection `useEffect` (App.tsx lines 43-52) up to and including issuing
the `fetchActions` call, i.e. the state observable while that fetch is in
flight. Non-empty id: derive the snapshot by `players.find(...)` and leave the
rest (in particular `actions`) unchanged. Empty id: clear snapshot and log
synchronously. -/
def selectionEffectPendingState (s : AppState) : AppState :=
  if s.selectedPlayerId ≠ "" then
    { s with selectedPlayer := s.players.find? (fun p => p.id == s.selectedPlayerId) }
  else
    { s with selectedPlayer := none, actions := [] }

/-- The selection `useEffect` including the resolution of the `fetchActions`
call it issues in the non-empty branch (with outcome `r`); the empty branch
issues no fetch and ignores `r`. -/
def selectionEffect (s : AppState) (r : FetchOutcome (Payload PlayerAction)) :
    AppState × List Effect :=
  if s.selectedPlayerId ≠ "" then
    fetchActions (selectionEffectPendingState s) s.selectedPlayerId r
  else
    (selectionEffectPendingState s, [])

/-- The JSON body `{player_id, action_text, turn_number}` that
`handleSubmitAction` POSTs: the raw text buffer and
`nextTurn = actions.length + 1`. -/
def submitBody (s : AppState) : CreateActionBody :=
  { player_id := s.selectedPlayerId
    action_text := s.newActionText
    turn_number := s.actions.length + 1 }

/-- The `handleSubmitAction` handler (App.tsx lines 79-106), given the outcome
of the POST and, when the POST succeeds, the outcome of the `fetchActions`
refresh it triggers. Guard: `if (!selectedPlayerId || !newActionText.trim())
return;`. POST failure: `alert` and nothing else. POST success: clear the text
buffer and run `fetchActions(selectedPlayerId)`. -/
def handleSubmitAction (s : AppState) (post : FetchOutcome Unit)
    (refetch : FetchOutcome (Payload PlayerAction)) : AppState × List Effect :=
  if s.selectedPlayerId = "" ∨ jsTrim s.newActionText = "" then
    (s, [])
  else
    match post with
    | .failure msg =>
        (s, [.request (.postAction (submitBody s)), .alert msg])
    | .success _ =>
        let s1 := { s with newActionText := "" }
        let res := fetchActions s1 s.selectedPlayerId refetch
        (res.1, .request (.postAction (submitBody s)) :: res.2)

/-- The sample player from the spec scenario. -/
def rogue : Player :=
  { id := "p1", name := "Rogue", hp := 10, strength := 5, dexterity := 8,
    intelligence := 4, gold := 20 }

/-- A second sample player. -/
def mage : Player :=
  { id := "p2", name := "Mage", hp := 8, strength := 3, dexterity := 4,
    intelligence := 9, gold := 15 }

/-- A sample persisted action of player "p1". -/
def oldAction : PlayerAction :=
  { id := "a1", player_id := "p1", action_text := "Pick the lock",
    turn_number := 1, created_at := none }

/-- State just after the user switches the selection from "p1" to "p2": the
log still holds p1's entries, the new id is already set. -/
def switchState : AppState :=
  { players := [rogue, mage], selectedPlayerId := "p2",
    selectedPlayer := some rogue, actions := [oldAction],
    newActionText := "", loading := false, error := none }

/-- State with "p1" selected, an empty log, and a valid draft, as in the spec
scenario. -/
def submitState : AppState :=
  { players := [rogue], selectedPlayerId := "p1",
    selectedPlayer := some rogue, actions := [],
    newActionText := "Pick the lock", loading := false, error := none }

/-- State like `submitState` but with a whitespace-only draft. -/
def blankDraftState : AppState :=
  { submitState with newActionText := "   " }

/-- State like `submitState` but with a draft padded by whitespace. -/
def paddedDraftState : AppState :=
  { submitState with newActionText := "  Pick the lock  " }

/-- Helper for the snapshot lookup: `List.find?` returns the unique element
matching the id. -/
theorem find?_eq_some_of_unique (l : List Player) (i : String) (p : Player)
    (hmem : p ∈ l) (hid : p.id = i)
    (huniq : ∀ q ∈ l, q.id = i → q = p) :
    l.find? (fun q => q.id == i) = some p := by
  induction l with
  | nil => cases hmem
  | cons a t ih =>
    by_cases ha : a.id = i
    · have hap : a = p := huniq a (List.mem_cons_self a t) ha
      rw [List.find?_cons_of_pos _ (by simpa using ha)]
      exact congrArg some hap
    · rw [List.find?_cons_of_neg _ (by simpa using ha)]
      refine ih ?_ ?_
      · rcases List.mem_cons.mp hmem with h | h
        · exact absurd (h ▸ hid) ha
        · exact h
      · intro q hq hqi
        exact huniq q (List.mem_cons_of_mem a hq) hqi

/-- C1: the claim as stated is false. In `switchState` the selection has just
changed from "p1" to "p2" (both non-empty); at the point where the selection
effect has run its synchronous part and issued the fetch, the displayed log
still holds the old player's entry: the log is not cleared before the fetch of
the new player's actions. -/
theorem selection_change_keeps_old_log_cx :
    (selectionEffectPendingState switchState).selectedPlayerId = "p2" ∧
    (selectionEffectPendingState switchState).actions = [oldAction] ∧
    oldAction.player_id = "p1" ∧ ("p1" : String) ≠ "p2" := by
  refine ⟨rfl, rfl, rfl, by decide⟩

/-- C1 (amended): when selection changes to the empty id, the log is cleared
synchronously and no fetch is issued; when it changes to a non-empty id, the
log is NOT cleared while the fetch is in flight (the old entries remain
displayed), and once the fetch resolves successfully the log is replaced
wholesale by exactly the fetched entries, so the post-resolution log never
mixes old and new entries. -/
theorem selection_change_log_replacement (s : AppState) (ps : List PlayerAction) :
    (s.selectedPlayerId = "" →
      (selectionEffectPendingState s).actions = [] ∧
      (selectionEffect s (.success (.arr ps))).2 = []) ∧
    (s.selectedPlayerId ≠ "" →
      (selectionEffectPendingState s).actions = s.actions ∧
      (selectionEffect s (.success (.arr ps))).1.actions = ps) := by
  constructor
  · intro h
    rw [selectionEffectPendingState, selectionEffect, if_neg (by simp [h]),
      if_neg (by simp [h]), selectionEffectPendingState, if_neg (by simp [h])]
    exact ⟨rfl, rfl⟩
  · intro h
    rw [selectionEffectPendingState, selectionEffect, if_pos h, if_pos h]
    exact ⟨rfl, rfl⟩

/-- Witness for the amended C1 at the concrete switch from "p1" to "p2". -/
theorem selection_change_log_replacement_witness :
    (selectionEffectPendingState switchState).actions = switchState.actions ∧
    (selectionEffect switchState (.success (.arr []))).1.actions = [] :=
  (selection_change_log_replacement switchState []).2 (by decide)

/-- C2: a valid submission with N entries in the displayed log sends a POST
whose body carries `turn_number = N + 1`, computed from the client-observed
log length. -/
theorem submit_turn_number (s : AppState) (post : FetchOutcome Unit)
    (refetch : FetchOutcome (Payload PlayerAction)) (N : Nat)
    (hid : s.selectedPlayerId ≠ "") (htext : jsTrim s.newActionText ≠ "")
    (hN : s.actions.length = N) :
    (handleSubmitAction s post refetch).2.head? =
      some (.request (.postAction
        { player_id := s.selectedPlayerId, action_text := s.newActionText,
          turn_number := N + 1 })) := by
  have hcond : ¬(s.selectedPlayerId = "" ∨ jsTrim s.newActionText = "") := by
    push_neg
    exact ⟨hid, htext⟩
  unfold handleSubmitAction
  rw [if_neg hcond]
  cases post with
  | failure msg => simp [submitBody, hN]
  | success u => simp [submitBody, fetchActions, hN]

/-- Witness for C2: the spec scenario (player "p1", empty log, draft
"Pick the lock") sends `turn_number = 1`. -/
theorem submit_turn_number_witness :
    (handleSubmitAction submitState (.success ()) (.success (.arr []))).2.head? =
      some (.request (.postAction
        { player_id := "p1", action_text := "Pick the lock",
          turn_number := 1 })) :=
  submit_turn_number submitState (.success ()) (.success (.arr [])) 0
    (by decide) (by decide) rfl

/-- C3: selecting a non-empty id that has a unique match in the player list
sets the snapshot to that element; selecting a non-empty id absent from the
list, or the empty id, sets the snapshot to none; and the selection effect
never issues any request besides the action-log fetch for the selected id (in
particular, no separate player-detail fetch). -/
theorem selection_snapshot (s : AppState) :
    (∀ p : Player, s.selectedPlayerId ≠ "" → p ∈ s.players →
      p.id = s.selectedPlayerId →
      (∀ q ∈ s.players, q.id = s.selectedPlayerId → q = p) →
      (selectionEffectPendingState s).selectedPlayer = some p) ∧
    (s.selectedPlayerId ≠ "" → (∀ q ∈ s.players, q.id ≠ s.selectedPlayerId) →
      (selectionEffectPendingState s).selectedPlayer = none) ∧
    (s.selectedPlayerId = "" →
      (selectionEffectPendingState s).selectedPlayer = none) ∧
    (∀ r q, Effect.request q ∈ (selectionEffect s r).2 →
      q = Request.getActions s.selectedPlayerId) := by
  refine ⟨?_, ?_, ?_, ?_⟩
  · intro p hne hmem hid huniq
    rw [selectionEffectPendingState, if_pos hne]
    exact find?_eq_some_of_unique s.players s.selectedPlayerId p hmem hid huniq
  · intro hne hnone
    rw [selectionEffectPendingState, if_pos hne]
    exact List.find?_eq_none.mpr (fun x hx => by simpa using hnone x hx)
  · intro h
    rw [selectionEffectPendingState, if_neg (by simp [h])]
  · intro r q hq
    rw [selectionEffect] at hq
    by_cases hne : s.selectedPlayerId ≠ ""
    · rw [if_pos hne] at hq
      cases r with
      | success payload => simpa [fetchActions, fetchActionsResolve] using hq
      | failure msg => simpa [fetchActions, fetchActionsResolve] using hq
    · rw [if_neg hne] at hq
      simp at hq

/-- Witness for C3: in `switchState` the selected id "p2" has the unique match
`mage`, so the snapshot is set to `mage`. -/
theorem selection_snapshot_witness :
    (selectionEffectPendingState switchState).selectedPlayer = some mage :=
  (selection_snapshot switchState).1 mage (by decide) (by decide) (by decide)
    (by decide)

/-- C4: with an empty selected id or a blank (whitespace-only) draft, the
submission handler returns the state unchanged and performs no effect at all:
no request, no alert, no console output. -/
theorem submit_rejected_noop (s : AppState) (post : FetchOutcome Unit)
    (refetch : FetchOutcome (Payload PlayerAction))
    (h : s.selectedPlayerId = "" ∨ jsTrim s.newActionText = "") :
    handleSubmitAction s post refetch = (s, []) := by
  unfold handleSubmitAction
  rw [if_pos h]

/-- Witness for C4: a whitespace-only draft is rejected silently. -/
theorem submit_rejected_noop_witness :
    handleSubmitAction blankDraftState (.success ())
      (.success (.arr [])) = (blankDraftState, []) :=
  submit_rejected_noop blankDraftState (.success ()) (.success (.arr []))
    (Or.inr (by decide))

/-- C5: when the POST fails, the whole state is unchanged (so the draft text
and the action log are retained and the persistent `error` field untouched),
and the only effects are the POST itself and a blocking `alert` — a channel
distinct from the `error` state field. -/
theorem submit_failure_preserves_draft (s : AppState) (msg : String)
    (refetch : FetchOutcome (Payload PlayerAction))
    (hid : s.selectedPlayerId ≠ "") (htext : jsTrim s.newActionText ≠ "") :
    handleSubmitAction s (.failure msg) refetch =
      (s, [.request (.postAction (submitBody s)), .alert msg]) := by
  have hcond : ¬(s.selectedPlayerId = "" ∨ jsTrim s.newActionText = "") := by
    push_neg
    exact ⟨hid, htext⟩
  unfold handleSubmitAction
  rw [if_neg hcond]

/-- Witness for C5 at the spec scenario with a failing POST. -/
theorem submit_failure_preserves_draft_witness :
    handleSubmitAction submitState (.failure "Failed to submit action")
      (.success (.arr [])) =
      (submitState, [.request (.postAction (submitBody submitState)),
        .alert "Failed to submit action"]) :=
  submit_failure_preserves_draft submitState "Failed to submit action"
    (.success (.arr [])) (by decide) (by decide)

/-- C6: when the POST succeeds, the draft buffer is cleared and the action log
is re-fetched for the submitted id and replaced wholesale by exactly the
fetched entries — independent of the previous log, so there is no client-side
optimistic append. -/
theorem submit_success_refetches (s : AppState) (ps : List PlayerAction)
    (hid : s.selectedPlayerId ≠ "") (htext : jsTrim s.newActionText ≠ "") :
    handleSubmitAction s (.success ()) (.success (.arr ps)) =
      ({ s with newActionText := "", actions := ps },
       [.request (.postAction (submitBody s)),
        .request (.getActions s.selectedPlayerId)]) := by
  have hcond : ¬(s.selectedPlayerId = "" ∨ jsTrim s.newActionText = "") := by
    push_neg
    exact ⟨hid, htext⟩
  unfold handleSubmitAction
  rw [if_neg hcond]
  rfl

/-- Witness for C6 at the spec scenario with a successful POST whose refresh
returns the new entry. -/
theorem submit_success_refetches_witness :
    handleSubmitAction submitState (.success ())
      (.success (.arr [oldAction])) =
      ({ submitState with newActionText := "", actions := [oldAction] },
       [.request (.postAction (submitBody submitState)),
        .request (.getActions "p1")]) :=
  submit_success_refetches submitState [oldAction] (by decide) (by decide)

/-- C7: the startup player-list fetch sets the loading flag true before the
request and false after it on both outcomes; on failure it records the error
message, leaves the (initially empty) player list empty, and issues exactly
one request (no retry). -/
theorem players_fetch_loading_and_failure (s : AppState)
    (r : FetchOutcome (Payload Player)) (msg : String)
    (hempty : s.players = []) :
    (fetchPlayersStart s).loading = true ∧
    (fetchPlayers s r).1.loading = false ∧
    (fetchPlayers s (.failure msg)).1.error = some msg ∧
    (fetchPlayers s (.failure msg)).1.players = [] ∧
    (fetchPlayers s r).2 = [.request .getPlayers] := by
  refine ⟨rfl, ?_, rfl, ?_, rfl⟩
  · cases r <;> rfl
  · simpa [fetchPlayers, fetchPlayersResolve, fetchPlayersStart] using hempty

/-- Witness for C7: the startup fetch failing from the initial state. -/
theorem players_fetch_loading_and_failure_witness :
    (fetchPlayersStart initialState).loading = true ∧
    (fetchPlayers initialState (.failure "Failed to fetch players")).1.loading
      = false ∧
    (fetchPlayers initialState (.failure "Failed to fetch players")).1.error
      = some "Failed to fetch players" ∧
    (fetchPlayers initialState (.failure "Failed to fetch players")).1.players
      = [] ∧
    (fetchPlayers initialState (.failure "Failed to fetch players")).2
      = [.request .getPlayers] :=
  players_fetch_loading_and_failure initialState
    (.failure "Failed to fetch players") "Failed to fetch players" rfl

/-- C8: a failing action-log fetch leaves the state exactly unchanged (log,
snapshot, error message, everything) and reports the failure only through the
diagnostic `console.error` channel, next to the request itself. -/
theorem actions_fetch_failure_swallowed (s : AppState) (playerId msg : String) :
    fetchActions s playerId (.failure msg) =
      (s, [.request (.getActions playerId),
           .consoleError ("Error fetching actions: " ++ msg)]) := rfl

/-- C9: a successful response whose parsed payload is not an array is coerced
to the empty list, for the player list and for the action log alike. -/
theorem non_array_coerced_to_empty (sp sa : AppState) (playerId : String) :
    (fetchPlayers sp (.success .notArray)).1.players = [] ∧
    (fetchActions sa playerId (.success .notArray)).1.actions = [] :=
  ⟨rfl, rfl⟩

/-- C10: a valid submission POSTs a body whose `action_text` is the raw draft
buffer, not a trimmed copy, even though the guard validated the trimmed
text. -/
theorem submit_sends_raw_text (s : AppState) (post : FetchOutcome Unit)
    (refetch : FetchOutcome (Payload PlayerAction))
    (hid : s.selectedPlayerId ≠ "") (htext : jsTrim s.newActionText ≠ "") :
    ∃ b, (handleSubmitAction s post refetch).2.head? =
      some (.request (.postAction b)) ∧ b.action_text = s.newActionText := by
  have hcond : ¬(s.selectedPlayerId = "" ∨ jsTrim s.newActionText = "") := by
    push_neg
    exact ⟨hid, htext⟩
  refine ⟨submitBody s, ?_, rfl⟩
  unfold handleSubmitAction
  rw [if_neg hcond]
  cases post with
  | failure msg => rfl
  | success u => rfl

/-- Witness for C10: a draft padded with whitespace is sent verbatim, padding
included. -/
theorem submit_sends_raw_text_witness :
    ∃ b, (handleSubmitAction paddedDraftState (.success ())
        (.success (.arr []))).2.head? =
      some (.request (.postAction b)) ∧ b.action_text = "  Pick the lock  " :=
  submit_sends_raw_text paddedDraftState (.success ()) (.success (.arr []))
    (by decide) (by decide)

end DnDApp
